import Mathlib

/-!
Shallow embedding of the authenticated real-time broadcast hub and its
backing session cache (Go sources: `internal/websockets`, the session
repository, the generic cache builder, and the JWT token utilities),
together with theorems settling the specification claims about them.

Machine integers do not overflow in the modelled code paths (timestamps
and counters are small), so they are modelled as `Nat`/`Int`.
Side-effecting operations are modelled by explicit state passing and by
effect records; fallible operations return `Except`.
-/

namespace Baseline

/-! ## String helpers

Substring containment, used to state the spec's "reason contains ..."
conditions. -/

def listStartsWith : List Char → List Char → Bool
  | _, [] => true
  | [], _ :: _ => false
  | a :: as, b :: bs => a == b && listStartsWith as bs

/-- `listHasSub s pat` holds when `pat` occurs contiguously inside `s`. -/
def listHasSub : List Char → List Char → Bool
  | [], pat => listStartsWith [] pat
  | s@(_ :: rest), pat => listStartsWith s pat || listHasSub rest pat

/-- `strContainsStr s pat`: `pat` is a contiguous substring of `s`. -/
def strContainsStr (s pat : String) : Bool :=
  listHasSub s.toList pat.toList

theorem strContainsStr_refl (s : String) : strContainsStr s s = true := by
  cases s with
  | mk data =>
    cases data with
    | nil => rfl
    | cons c cs =>
      have h : ∀ l : List Char, listStartsWith l l = true := by
        intro l
        induction l with
        | nil => rfl
        | cons a as ih => simp [listStartsWith, ih]
      simp [strContainsStr, String.toList, listHasSub, h]

/-! ## UUID model

Model of the `github.com/google/uuid` collaborator library.
`uuidStringOf` models `UUID.String()` applied to a freshly generated
uuid (`uuid.New()` / `uuid.NewV7()`): the canonical 36-character
hyphenated lowercase-hex rendering of a 128-bit value; the generator's
randomness is supplied as the `Nat` seed.  `uuidParses` models success
of `uuid.Parse` on the two forms relevant here (canonical 36-character
hyphenated form and 32-character bare hex); the library additionally
accepts `urn:uuid:`-prefixed and braced forms, which no modelled caller
uses.  `uuid.Parse("u-1")` fails with an invalid-length error, which
this model reflects by returning `false` for every string whose length
is neither 36 nor 32. -/

def hexDigitChar (n : Nat) : Char :=
  if n < 10 then Char.ofNat (48 + n) else Char.ofNat (87 + n)

def hexPad : Nat → Nat → List Char
  | 0, _ => []
  | k + 1, n => hexDigitChar (n / 16 ^ k % 16) :: hexPad k n

def uuidStringOf (n : Nat) : String :=
  let h := hexPad 32 n
  String.mk
    (h.take 8 ++ '-' :: (h.drop 8).take 4 ++ '-' :: (h.drop 12).take 4 ++
      '-' :: (h.drop 16).take 4 ++ '-' :: h.drop 20)

/-- `uuid.Nil`, the zero UUID, rendered. -/
def uuidNil : String := "00000000-0000-0000-0000-000000000000"

def isHexDigit (c : Char) : Bool :=
  ('0' ≤ c && c ≤ '9') || ('a' ≤ c && c ≤ 'f') || ('A' ≤ c && c ≤ 'F')

def uuidParses (s : String) : Bool :=
  let cs := s.toList
  if cs.length = 36 then
    (List.range 36).all (fun i =>
      if i = 8 ∨ i = 13 ∨ i = 18 ∨ i = 23 then cs.getD i ' ' == '-'
      else isHexDigit (cs.getD i ' '))
  else if cs.length = 32 then cs.all isHexDigit
  else false

theorem string_mk_cons_ne_empty (c : Char) (l : List Char) :
    String.mk (c :: l) ≠ "" := by
  intro h
  have hd : (String.mk (c :: l)).data = ("" : String).data := congrArg String.data h
  exact List.cons_ne_nil c l hd

theorem uuidStringOf_ne_empty (n : Nat) : uuidStringOf n ≠ "" := by
  show String.mk _ ≠ ""
  rw [show hexPad 32 n = hexDigitChar (n / 16 ^ 31 % 16) :: hexPad 31 n from rfl]
  exact string_mk_cons_ne_empty _ _

theorem uuidParses_ne_empty {s : String} (h : uuidParses s = true) : s ≠ "" := by
  intro he
  subst he
  exact absurd h (by decide)

theorem str_append_ne_empty (a b : String) (h : a.length ≠ 0) : a ++ b ≠ "" := by
  intro hab
  have hl := congrArg String.length hab
  rw [String.length_append] at hl
  have h0 : String.length "" = 0 := rfl
  omega

/-! ## Configuration

`config.Config`, restricted to the field the modelled code reads. -/

structure Config where
  SecurityJwtSecret : String := ""
deriving DecidableEq

/-! ## JWT token model (`internal/utils/token.utils.go`)

The `github.com/golang-jwt/jwt/v4` collaborator is modelled
structurally: a signed token is its header algorithm, its claims and
its signature; `hmacTag` models the HMAC-SHA family as a deterministic
keyed MAC (distinct algorithm, key or payload give a distinct tag).
The base64/JSON wire encoding of tokens is external serialization and
is not part of the model. -/

inductive SigningMethod
  | HS256
  | HS384
  | HS512
  | RS256
  | ES256
  | EdDSA
deriving DecidableEq

def SigningMethod.algName : SigningMethod → String
  | .HS256 => "HS256"
  | .HS384 => "HS384"
  | .HS512 => "HS512"
  | .RS256 => "RS256"
  | .ES256 => "ES256"
  | .EdDSA => "EdDSA"

/-- `token.Method.(*jwt.SigningMethodHMAC)` succeeds exactly for the
HMAC family HS256/HS384/HS512. -/
def SigningMethod.isHMACFamily : SigningMethod → Bool
  | .HS256 => true
  | .HS384 => true
  | .HS512 => true
  | _ => false

/-- `utils.TokenClaims`: a `UserID` plus the embedded
`jwt.RegisteredClaims` fields the code sets. Times are Unix seconds. -/
structure TokenClaims where
  UserID : String := ""
  ExpiresAt : Nat := 0
  IssuedAt : Nat := 0
  NotBefore : Nat := 0
  Issuer : String := ""
  ID : String := ""
deriving DecidableEq

def encodeClaims (c : TokenClaims) : String :=
  c.UserID ++ "|" ++ c.Issuer ++ "|" ++ c.ID ++ "|" ++ toString c.ExpiresAt ++
    "|" ++ toString c.IssuedAt ++ "|" ++ toString c.NotBefore

/-- Model of the HMAC-SHA MAC used by the HS* signing methods. -/
def hmacTag (method : SigningMethod) (secret payload : String) : String :=
  method.algName ++ "#" ++ secret ++ "#" ++ payload

structure SignedToken where
  method : SigningMethod
  claims : TokenClaims
  signature : String
deriving DecidableEq

/-- `utils.GenerateJWTToken`: reject an empty secret, reject a
`userID` that `uuid.Parse` cannot parse, then sign the claims with
HS256.  `now` stands for the two `time.Now()` reads (issued-at and
not-before) and `tokenID` for the fresh `uuid.New().String()`. -/
def GenerateJWTToken (userID : String) (expiresAt : Nat) (issuer : String)
    (cfg : Config) (now : Nat) (tokenID : String) : Except String SignedToken :=
  if cfg.SecurityJwtSecret = "" then
    .error "JWT secret key not found in config"
  else if uuidParses userID = false then
    .error "failed to parse user id"
  else
    let claims : TokenClaims :=
      { UserID := userID, ExpiresAt := expiresAt, IssuedAt := now,
        NotBefore := now, Issuer := issuer, ID := tokenID }
    .ok { method := .HS256, claims := claims,
          signature := hmacTag .HS256 cfg.SecurityJwtSecret (encodeClaims claims) }

/-- `utils.ParseJWTToken`: reject an empty secret; the key function
rejects any method outside the HMAC family; then the library verifies
the signature and validates the registered claims (expiry strictly in
the future, not-before not in the future). -/
def ParseJWTToken (tok : SignedToken) (cfg : Config) (now : Nat) :
    Except String TokenClaims :=
  if cfg.SecurityJwtSecret = "" then
    .error "JWT secret key not found in config"
  else if tok.method.isHMACFamily = false then
    .error "unexpected signing method"
  else if tok.signature ≠ hmacTag tok.method cfg.SecurityJwtSecret (encodeClaims tok.claims) then
    .error "signature is invalid"
  else if tok.claims.ExpiresAt ≤ now then
    .error "token is expired"
  else if now < tok.claims.NotBefore then
    .error "token used before issued"
  else
    .ok tok.claims

/-! ## Cache builder model (`internal/database`, cache builder)

The valkey client is modelled as an association list of string keys to
string values (`SET` shadows by consing, `DEL` filters, `GET` takes the
first binding) plus a nil flag for the `cache client is nil` check.
Contexts are modelled by their deadline: `context.Background()` has
none; `context.WithCancel` keeps the parent deadline;
`context.WithTimeout ctx d` has deadline `min(parentDeadline, now+d)`.
Times are Unix seconds. -/

structure ValkeyStore where
  isNil : Bool := false
  entries : List (String × String) := []
deriving DecidableEq

def storeSet (l : List (String × String)) (k v : String) : List (String × String) :=
  (k, v) :: l

def storeDelete (l : List (String × String)) (k : String) : List (String × String) :=
  l.filter (fun p => p.1 != k)

structure CacheBuilder where
  cache : ValkeyStore
  key : String
  value : String := ""
  ttl : Nat := 3600
  ctxDeadline : Option Int := none
  ctxTimeout : Int := 5
  member : String := ""
  err : Option String := none
deriving DecidableEq

/-- `database.NewCacheBuilder` (string-key instantiation): one hour
default TTL, five second default operation timeout, background
context. -/
def NewCacheBuilder (cache : ValkeyStore) (key : String) : CacheBuilder :=
  { cache := cache, key := key, ttl := 3600, ctxTimeout := 5, ctxDeadline := none }

def CacheBuilder.WithValue (cb : CacheBuilder) (value : String) : CacheBuilder :=
  { cb with value := value }

/-- Model of Go's `fmt.Sprintf` for a format string that contains no
verb and one extra string argument, the only shape the repository uses
(`fmt.Sprintf("session:", key)`): the argument is reported as an extra
operand. -/
def goSprintfNoVerb (pattern arg : String) : String :=
  pattern ++ "%!(EXTRA string=" ++ arg ++ ")"

def CacheBuilder.WithHashPattern (cb : CacheBuilder) (hashPattern : String) : CacheBuilder :=
  if hashPattern = "" then cb
  else { cb with key := goSprintfNoVerb hashPattern cb.key }

def CacheBuilder.WithTTL (cb : CacheBuilder) (ttl : Nat) : CacheBuilder :=
  { cb with ttl := ttl }

def CacheBuilder.WithContext (cb : CacheBuilder) (ctxDeadline : Option Int) : CacheBuilder :=
  { cb with ctxDeadline := ctxDeadline }

def CacheBuilder.WithTimeout (cb : CacheBuilder) (timeout : Int) : CacheBuilder :=
  { cb with ctxTimeout := timeout }

/-- `CacheBuilder.createTimeoutContext`, as the effective deadline of
the derived context at wall-clock time `now`: a context whose remaining
time is non-positive or shorter than the builder timeout is only
wrapped in `WithCancel` (deadline preserved); otherwise
`WithTimeout(ctx, ctxTimeout)` applies. -/
def CacheBuilder.createTimeoutContext (cb : CacheBuilder) (now : Int) : Option Int :=
  match cb.ctxDeadline with
  | some deadline =>
    let remaining := deadline - now
    if remaining ≤ 0 then some deadline
    else if remaining < cb.ctxTimeout then some deadline
    else some (min deadline (now + cb.ctxTimeout))
  | none => some (now + cb.ctxTimeout)

/-- `CacheBuilder.Set`: deferred builder error, nil client, empty key
and empty value all fail before the network call; otherwise the value
is stored under the key (the TTL and the derived timeout context bound
the external call and do not alter the stored state model). -/
def CacheBuilder.Set (cb : CacheBuilder) : Except String ValkeyStore :=
  match cb.err with
  | some e => .error e
  | none =>
    if cb.cache.isNil then .error "cache client is nil"
    else if cb.key = "" then .error "key is required"
    else if cb.value = "" then .error "value is required"
    else .ok { cb.cache with entries := storeSet cb.cache.entries cb.key cb.value }

/-- `CacheBuilder.Get`: returns the serialized record stored under the
key; a missing key surfaces the backend's nil-reply error verbatim.
The caller-side `json.Unmarshal` into the target struct is the
deserialization of the returned string. -/
def CacheBuilder.Get (cb : CacheBuilder) : Except String String :=
  match cb.err with
  | some e => .error e
  | none =>
    if cb.cache.isNil then .error "cache client is nil"
    else
      match cb.cache.entries.lookup cb.key with
      | some v => .ok v
      | none => .error "key not found"

/-- `CacheBuilder.Delete`: `DEL` on the key; deleting an absent key is
not an error. -/
def CacheBuilder.Delete (cb : CacheBuilder) : Except String ValkeyStore :=
  match cb.err with
  | some e => .error e
  | none =>
    if cb.cache.isNil then .error "cache client is nil"
    else .ok { cb.cache with entries := storeDelete cb.cache.entries cb.key }

/-! ## Session repository (`repositories`, session repository file)

`models.Session` carries the issued token; the Go field is the encoded
JWT string, modelled here as the structured token.  `marshalSession`
models `json.Marshal` of the record: a deterministic non-empty
serialization. -/

def SESSION_EXPIRY : Nat := 7 * 24 * 3600

def SESSION_REFRESH : Nat := 5 * 24 * 3600

def SESSION_CACHE_KEY : String := "session:"

def SESSION_ISSUER_KEY : String := "app_api"

structure Session where
  ID : String := ""
  UserID : String := ""
  Token : Option SignedToken := none
  ExpiresAt : Nat := 0
  RefreshAt : Nat := 0
deriving DecidableEq

def encodeTokenOpt : Option SignedToken → String
  | none => "-"
  | some t => t.method.algName ++ "." ++ encodeClaims t.claims ++ "." ++ t.signature

def marshalSession (s : Session) : String :=
  "sess(" ++ (s.ID ++ ";" ++ s.UserID ++ ";" ++ encodeTokenOpt s.Token ++ ";" ++
    toString s.ExpiresAt ++ ";" ++ toString s.RefreshAt ++ ")")

theorem marshalSession_ne_empty (s : Session) : marshalSession s ≠ "" := by
  exact str_append_ne_empty _ _ (by decide)

/-- `CacheBuilder.WithSruct` [sic], instantiated at the one struct type
the repository stores: `json.Marshal` the record and carry the result
as the value (marshalling a `models.Session` cannot fail, so the
builder's deferred-error path is not reachable from it). -/
def CacheBuilder.WithSruct (cb : CacheBuilder) (s : Session) : CacheBuilder :=
  { cb with value := marshalSession s }

/-- `sessionRepository.Create`: reject a pre-populated session id and
an empty user id; stamp a fresh v7 id (`newID` is the generator's
randomness) and the expiry/refresh times; issue the token; then persist
under the hash-pattern key with TTL `SESSION_EXPIRY`.  `now` stands for
the `time.Now()` reads and `tokenID` for the token's fresh jti. -/
def sessionRepository.Create (now : Nat) (newID : Nat) (tokenID : String)
    (session : Session) (cfg : Config) (cache : ValkeyStore) :
    Except String (Session × ValkeyStore) :=
  if session.ID ≠ "" then .error "Should not already have a Session ID, not a create"
  else if session.UserID = "" then .error "Missing User ID"
  else
    let s1 : Session :=
      { session with ID := uuidStringOf newID,
                     ExpiresAt := now + SESSION_EXPIRY,
                     RefreshAt := now + SESSION_REFRESH }
    match GenerateJWTToken s1.UserID s1.ExpiresAt SESSION_ISSUER_KEY cfg now tokenID with
    | .error e => .error e
    | .ok tok =>
      let s2 : Session := { s1 with Token := some tok }
      match ((((NewCacheBuilder cache s2.ID).WithHashPattern SESSION_CACHE_KEY).WithSruct
          s2).WithTTL SESSION_EXPIRY).Set with
      | .error e => .error e
      | .ok cache2 => .ok (s2, cache2)

/-- `sessionRepository.GetByID`: fetch the serialized record from the
cache under the hash-pattern key (deserialization into
`models.Session` is the caller-side `json.Unmarshal`). -/
def sessionRepository.GetByID (cache : ValkeyStore) (sessionID : String) :
    Except String String :=
  ((NewCacheBuilder cache sessionID).WithHashPattern SESSION_CACHE_KEY).Get

/-- `sessionRepository.Delete`: delete the record under the
hash-pattern key. -/
def sessionRepository.Delete (cache : ValkeyStore) (sessionID : String) :
    Except String ValkeyStore :=
  ((NewCacheBuilder cache sessionID).WithHashPattern SESSION_CACHE_KEY).Delete

/-! ## WebSocket hub model (`internal/websockets`)

Wire payloads (`map[string]any`) are modelled as association lists over
a JSON-value type; the Go type assertion `data["token"].(string)`
succeeds exactly when the key is present and bound to a string.  Each
client's outbound mailbox (`send chan Message`) is a bounded queue: a
non-blocking `select ... default` push appends when the queue is below
capacity and drops otherwise, while a plain blocking push appends (it
completes once capacity allows).  `ClientEffects` records what a
handler did: the updated client, the messages it enqueued on the
mailbox, whether it scheduled the delayed connection close, whether it
invoked token verification, and whether it promoted the client. -/

inductive DataValue
  | str (s : String)
  | num (n : Int)
  | boolVal (b : Bool)
  | null
deriving DecidableEq

def MessageTypePing : String := "ping"

def MessageTypePong : String := "pong"

def MessageTypeMessage : String := "message"

def MessageTypeBroadcast : String := "broadcast"

def MessageTypeError : String := "error"

def MessageTypeUserJoin : String := "user_join"

def MessageTypeUserLeave : String := "user_leave"

def MessageTypeAuthRequest : String := "auth_request"

def MessageTypeAuthResponse : String := "auth_response"

def MessageTypeAuthSuccess : String := "auth_success"

def MessageTypeAuthFailure : String := "auth_failure"

def SendChannelSize : Nat := 64

/-- Authentication status constants; the values 0/1/2/3 are pinned by
the package's own tests. -/
def StatusUnauthenticated : Nat := 0

def StatusPending : Nat := 1

def StatusAuthenticated : Nat := 2

def StatusClosed : Nat := 3

/-- The wire envelope `websockets.Message` (`Type'` stands for the Go
field `Type`, a Lean keyword). -/
structure Message where
  ID : String := ""
  Type' : String := ""
  Channel : String := ""
  Action : String := ""
  UserID : String := ""
  Data : List (String × DataValue) := []
  Timestamp : Nat := 0
deriving DecidableEq

/-- `data["token"].(string)`-style lookup: `some s` exactly when the
key is present and holds a string. -/
def lookupString (d : List (String × DataValue)) (k : String) : Option String :=
  match d.lookup k with
  | some (.str s) => some s
  | _ => none

/-- `websockets.Client`: connection id, resolved user id (`uuid.Nil`
until authenticated), status, and the outbound mailbox with its
capacity (`SendChannelSize` for real connections). -/
structure Client where
  ID : String := ""
  UserID : String := uuidNil
  Status : Nat := StatusUnauthenticated
  send : List Message := []
  sendCap : Nat := SendChannelSize
deriving DecidableEq

structure ClientEffects where
  client : Client
  sent : List Message
  closeScheduled : Bool
  tokenParsed : Bool
  promoted : Bool
deriving DecidableEq

/-- The auth-failure envelope `routeMessage` builds for a blocked
unauthenticated message. -/
def authenticationRequiredMessage (freshID : String) (now : Nat) : Message :=
  { ID := freshID, Type' := MessageTypeAuthFailure, Channel := "system",
    Action := "authentication_required",
    Data := [("reason", DataValue.str "Authentication required")],
    Timestamp := now }

/-- The auth-failure envelope `sendAuthFailure` builds. -/
def authFailureMessage (freshID : String) (now : Nat) (reason : String) : Message :=
  { ID := freshID, Type' := MessageTypeAuthFailure, Channel := "system",
    Action := "authentication_failed",
    Data := [("reason", DataValue.str reason)],
    Timestamp := now }

/-- The auth-success envelope `handleAuthResponse` builds. -/
def authSuccessMessage (freshID : String) (now : Nat) (userID : String) : Message :=
  { ID := freshID, Type' := MessageTypeAuthSuccess, Channel := "system",
    Action := "authenticated",
    Data := [("userId", DataValue.str userID)],
    Timestamp := now }

/-- `Client.sendAuthFailure`: enqueue the failure envelope on the
mailbox, then schedule the connection close after the 100ms grace
delay. -/
def Client.sendAuthFailure (c : Client) (reason : String) (freshID : String)
    (now : Nat) : ClientEffects :=
  let m := authFailureMessage freshID now reason
  { client := { c with send := c.send ++ [m] }, sent := [m],
    closeScheduled := true, tokenParsed := false, promoted := false }

/-- `Client.handleAuthResponse`: a non-`Unauthenticated` client is left
untouched; a missing, non-string or empty `data.token` draws
`sendAuthFailure "Invalid token format"` before any verification; a
token that fails `utils.ParseJWTToken` draws
`sendAuthFailure "Invalid token"`; a valid token stores the resolved
user id, marks the client `Authenticated`, promotes it, and enqueues
the success envelope.  `parse` is the verification collaborator
`utils.ParseJWTToken tokenString config` on the wire-encoded token. -/
def Client.handleAuthResponse (parse : String → Except String TokenClaims)
    (c : Client) (msg : Message) (freshID : String) (now : Nat) : ClientEffects :=
  if c.Status ≠ StatusUnauthenticated then
    { client := c, sent := [], closeScheduled := false,
      tokenParsed := false, promoted := false }
  else
    match lookupString msg.Data "token" with
    | none => c.sendAuthFailure "Invalid token format" freshID now
    | some token =>
      if token = "" then c.sendAuthFailure "Invalid token format" freshID now
      else
        match parse token with
        | .error _ =>
          { c.sendAuthFailure "Invalid token" freshID now with tokenParsed := true }
        | .ok claims =>
          let c2 : Client := { c with UserID := claims.UserID, Status := StatusAuthenticated }
          let m := authSuccessMessage freshID now c2.UserID
          { client := { c2 with send := c2.send ++ [m] }, sent := [m],
            closeScheduled := false, tokenParsed := true, promoted := true }

/-- `Client.routeMessage`: an `auth_response` goes to the handshake
handler; any other message from an `Unauthenticated` client draws one
`auth_failure` with reason "Authentication required" (and nothing
else); otherwise the message is dispatched by channel tag, which only
logs. -/
def Client.routeMessage (parse : String → Except String TokenClaims)
    (c : Client) (msg : Message) (freshID : String) (now : Nat) : ClientEffects :=
  if msg.Type' = MessageTypeAuthResponse then
    c.handleAuthResponse parse msg freshID now
  else if c.Status = StatusUnauthenticated then
    let m := authenticationRequiredMessage freshID now
    { client := { c with send := c.send ++ [m] }, sent := [m],
      closeScheduled := false, tokenParsed := false, promoted := false }
  else
    { client := c, sent := [], closeScheduled := false,
      tokenParsed := false, promoted := false }

/-- The non-blocking `select { case client.send <- message: ... default: drop }`
push: append below capacity, drop (recording the drop) at capacity. -/
def trySendMessage (c : Client) (msg : Message) : Client × Bool :=
  if c.send.length < c.sendCap then ({ c with send := c.send ++ [msg] }, true)
  else (c, false)

/-- `Manager.sendToAuthenticatedClients`: walk the registry, attempt a
non-blocking push to each `Authenticated` client only, and count the
successful sends. -/
def sendToAuthenticatedClients : List Client → Message → List Client × Nat
  | [], _ => ([], 0)
  | c :: rest, msg =>
    let tail := sendToAuthenticatedClients rest msg
    if c.Status = StatusAuthenticated then
      let r := trySendMessage c msg
      (r.1 :: tail.1, (if r.2 then 1 else 0) + tail.2)
    else
      (c :: tail.1, tail.2)

/-- What one fan-out step does to one client. -/
def deliverOne (msg : Message) (c : Client) : Client :=
  if c.Status = StatusAuthenticated ∧ c.send.length < c.sendCap then
    { c with send := c.send ++ [msg] }
  else c

/-- The Hub's client registry: connection id to client. -/
def HubRegistry : Type := List (String × Client)

/-- Modelled from the spec: the Hub's register-loop handler (the file
defining `Hub.run` is not among the sources; only its callers and tests
are).  Per the spec, on registration the Hub adds the client to its
registry unconditionally, regardless of authentication state
(`clients[client.ID] = client`; the cons shadows any older binding,
matching map assignment). -/
def hubRegisterClient (registry : List (String × Client)) (c : Client) :
    List (String × Client) :=
  (c.ID, c) :: registry

/-- Observable steps of `Manager.HandleWebSocket` up to the start of
the pump loops. -/
inductive ConnAction
  | writeConn (m : Message)
  | closeConn
  | registerClient (c : Client)
deriving DecidableEq

/-- `Manager.HandleWebSocket`: build the fresh unauthenticated client
with an empty mailbox of capacity `SendChannelSize`, write the
`auth_request` challenge straight to the socket with
`Connection.WriteJSON` (not via the mailbox), and only then hand the
client to the Hub's register queue; if that initial write fails the
connection is closed and the client is never registered.  `writeOk` is
the outcome of the initial socket write. -/
def HandleWebSocket (clientID freshMsgID : String) (now : Nat) (writeOk : Bool) :
    List ConnAction × Option Client :=
  let client : Client :=
    { ID := clientID, UserID := uuidNil, Status := StatusUnauthenticated,
      send := [], sendCap := SendChannelSize }
  let authRequest : Message :=
    { ID := freshMsgID, Type' := MessageTypeAuthRequest, Channel := "system",
      Action := "authenticate", Timestamp := now }
  if writeOk then ([.writeConn authRequest, .registerClient client], some client)
  else ([.writeConn authRequest, .closeConn], none)

/-! ## Helper lemmas -/

theorem goSprintfNoVerb_ne_empty (p a : String) : goSprintfNoVerb p a ≠ "" := by
  intro h
  have hl := congrArg String.length h
  rw [goSprintfNoVerb, String.length_append, String.length_append,
    String.length_append] at hl
  have h16 : ("%!(EXTRA string=" : String).length = 16 := rfl
  have h1 : (")" : String).length = 1 := rfl
  have h0 : String.length "" = 0 := rfl
  rw [h16, h1, h0] at hl
  omega

theorem sendToAuthenticatedClients_fst (clients : List Client) (msg : Message) :
    (sendToAuthenticatedClients clients msg).1 = clients.map (deliverOne msg) := by
  induction clients with
  | nil => rfl
  | cons c rest ih =>
    by_cases hs : c.Status = StatusAuthenticated
    · by_cases hc : c.send.length < c.sendCap
      · simp [sendToAuthenticatedClients, trySendMessage, deliverOne, hs, hc, ih]
      · simp [sendToAuthenticatedClients, trySendMessage, deliverOne, hs, hc, ih]
    · simp [sendToAuthenticatedClients, deliverOne, hs, ih]

theorem sendToAuthenticatedClients_snd (clients : List Client) (msg : Message) :
    (sendToAuthenticatedClients clients msg).2 =
      clients.countP
        (fun c => decide (c.Status = StatusAuthenticated ∧ c.send.length < c.sendCap)) := by
  induction clients with
  | nil => rfl
  | cons c rest ih =>
    by_cases hs : c.Status = StatusAuthenticated
    · by_cases hc : c.send.length < c.sendCap
      · simp [sendToAuthenticatedClients, trySendMessage, hs, hc, ih, List.countP_cons]
        omega
      · simp [sendToAuthenticatedClients, trySendMessage, hs, hc, ih, List.countP_cons]
    · simp [sendToAuthenticatedClients, hs, ih, List.countP_cons]

theorem lookup_storeDelete (l : List (String × String)) (k : String) :
    (storeDelete l k).lookup k = none := by
  rw [List.lookup_eq_none_iff]
  intro p hp
  have hmem := List.mem_filter.mp hp
  have hne : p.1 ≠ k := by
    intro hk
    rw [hk] at hmem
    simp at hmem
  simp [Ne.symm hne]

/-! ## Claim theorems -/

/-- C4 (confirmed): `createTimeoutContext` never lengthens an existing
deadline: when the inbound context carries a deadline `d`, the derived
context's deadline is at most `d`; when `d` is nearer than the builder
timeout the deadline `d` is preserved unshortened, and otherwise (for a
positive timeout, the default being 5 seconds) the builder timeout is
applied from `now`. -/
theorem createTimeoutContext_never_lengthens
    (cb : CacheBuilder) (now d : Int) (h : cb.ctxDeadline = some d) :
    ∃ e, cb.createTimeoutContext now = some e ∧ e ≤ d ∧
      (d - now < cb.ctxTimeout → e = d) ∧
      (0 < cb.ctxTimeout → cb.ctxTimeout ≤ d - now → e = now + cb.ctxTimeout) := by
  unfold CacheBuilder.createTimeoutContext
  rw [h]
  by_cases h0 : d - now ≤ 0
  · refine ⟨d, by simp [h0], le_refl d, fun _ => rfl, fun hpos ht => ?_⟩
    omega
  · by_cases h1 : d - now < cb.ctxTimeout
    · refine ⟨d, by simp [h0, h1], le_refl d, fun _ => rfl, fun hpos ht => ?_⟩
      omega
    · refine ⟨min d (now + cb.ctxTimeout), by simp [h0, h1], min_le_left _ _,
        fun hlt => absurd hlt h1, fun _ ht => min_eq_right (by omega)⟩

/-- Witness for C4: the spec's concrete scenario — inbound deadline 2
seconds away, default 5-second timeout from `NewCacheBuilder` — yields
an effective deadline of at most 2 seconds away (here exactly 2). -/
theorem createTimeoutContext_never_lengthens_witness :
    ((NewCacheBuilder { isNil := false, entries := [] } "k").WithContext
        (some 2)).ctxDeadline = some 2 ∧
    ∃ e, ((NewCacheBuilder { isNil := false, entries := [] } "k").WithContext
        (some 2)).createTimeoutContext 0 = some e ∧ e ≤ 2 ∧
      ((2 : Int) - 0 <
        ((NewCacheBuilder { isNil := false, entries := [] } "k").WithContext
          (some 2)).ctxTimeout → e = 2) ∧
      (0 < ((NewCacheBuilder { isNil := false, entries := [] } "k").WithContext
          (some 2)).ctxTimeout →
        ((NewCacheBuilder { isNil := false, entries := [] } "k").WithContext
          (some 2)).ctxTimeout ≤ (2 : Int) - 0 → e = 0 +
        ((NewCacheBuilder { isNil := false, entries := [] } "k").WithContext
          (some 2)).ctxTimeout) :=
  ⟨rfl, createTimeoutContext_never_lengthens _ 0 2 rfl⟩

/-- C5 (confirmed): broadcasting over a registry in which every
`Authenticated` client has spare mailbox capacity enqueues the event on
exactly the authenticated clients' mailboxes — each authenticated
client's mailbox gains the message, every other client is left
untouched, and the sent counter equals the number of authenticated
clients. -/
theorem broadcast_delivers_to_exactly_authenticated
    (clients : List Client) (msg : Message)
    (hspare : ∀ c ∈ clients, c.Status = StatusAuthenticated → c.send.length < c.sendCap) :
    (sendToAuthenticatedClients clients msg).1 =
      clients.map (fun c =>
        if c.Status = StatusAuthenticated then { c with send := c.send ++ [msg] } else c) ∧
    (sendToAuthenticatedClients clients msg).2 =
      clients.countP (fun c => decide (c.Status = StatusAuthenticated)) := by
  constructor
  · rw [sendToAuthenticatedClients_fst]
    apply List.map_congr_left
    intro c hc
    by_cases hs : c.Status = StatusAuthenticated
    · simp [deliverOne, hs, hspare c hc hs]
    · simp [deliverOne, hs]
  · rw [sendToAuthenticatedClients_snd]
    apply List.countP_congr
    intro c hc
    by_cases hs : c.Status = StatusAuthenticated
    · simp [hs, hspare c hc hs]
    · simp [hs]

/-- Witness for C5: three registered clients, two `Authenticated` with
spare capacity and one `Unauthenticated` — exactly the two
authenticated mailboxes receive the event. -/
theorem broadcast_delivers_to_exactly_authenticated_witness :
    (∀ c ∈ [{ ID := "a1", Status := StatusAuthenticated, send := [], sendCap := 2 : Client },
            { ID := "a2", Status := StatusAuthenticated, send := [{ ID := "old" }], sendCap := 2 : Client },
            { ID := "u1", Status := StatusUnauthenticated, send := [], sendCap := 2 : Client }],
        c.Status = StatusAuthenticated → c.send.length < c.sendCap) ∧
    ((sendToAuthenticatedClients
        [{ ID := "a1", Status := StatusAuthenticated, send := [], sendCap := 2 : Client },
         { ID := "a2", Status := StatusAuthenticated, send := [{ ID := "old" }], sendCap := 2 : Client },
         { ID := "u1", Status := StatusUnauthenticated, send := [], sendCap := 2 : Client }]
        { ID := "evt" }).1 =
      [{ ID := "a1", Status := StatusAuthenticated, send := [], sendCap := 2 : Client },
       { ID := "a2", Status := StatusAuthenticated, send := [{ ID := "old" }], sendCap := 2 : Client },
       { ID := "u1", Status := StatusUnauthenticated, send := [], sendCap := 2 : Client }].map
        (fun c => if c.Status = StatusAuthenticated then { c with send := c.send ++ [{ ID := "evt" }] } else c) ∧
     (sendToAuthenticatedClients
        [{ ID := "a1", Status := StatusAuthenticated, send := [], sendCap := 2 : Client },
         { ID := "a2", Status := StatusAuthenticated, send := [{ ID := "old" }], sendCap := 2 : Client },
         { ID := "u1", Status := StatusUnauthenticated, send := [], sendCap := 2 : Client }]
        { ID := "evt" }).2 =
      [{ ID := "a1", Status := StatusAuthenticated, send := [], sendCap := 2 : Client },
       { ID := "a2", Status := StatusAuthenticated, send := [{ ID := "old" }], sendCap := 2 : Client },
       { ID := "u1", Status := StatusUnauthenticated, send := [], sendCap := 2 : Client }].countP
        (fun c => decide (c.Status = StatusAuthenticated))) :=
  ⟨by decide, broadcast_delivers_to_exactly_authenticated _ _ (by decide)⟩

/-- C6 (confirmed): broadcasting with some authenticated target's
mailbox already at capacity does not block the fan-out — the walk
still visits and returns a result for every registered client — and
that full target's mailbox is left unchanged, while every authenticated
target with spare capacity still receives the message. -/
theorem broadcast_full_mailbox_drops_without_blocking
    (clients : List Client) (msg : Message) (c : Client)
    (_hc : c ∈ clients) (_hauth : c.Status = StatusAuthenticated)
    (hfull : c.sendCap ≤ c.send.length) :
    (sendToAuthenticatedClients clients msg).1.length = clients.length ∧
    (sendToAuthenticatedClients clients msg).1 = clients.map (deliverOne msg) ∧
    deliverOne msg c = c ∧
    (∀ d : Client, d.Status = StatusAuthenticated → d.send.length < d.sendCap →
      deliverOne msg d = { d with send := d.send ++ [msg] }) := by
  refine ⟨?_, sendToAuthenticatedClients_fst clients msg, ?_, ?_⟩
  · rw [sendToAuthenticatedClients_fst]
    exact List.length_map clients (deliverOne msg)
  · simp [deliverOne, Nat.not_lt.mpr hfull]
  · intro d hd hcap
    simp [deliverOne, hd, hcap]

/-- Witness for C6: a registry with one authenticated client whose
mailbox is at capacity and one with spare capacity — the full one is
unchanged and the other still receives the message. -/
theorem broadcast_full_mailbox_drops_without_blocking_witness :
    ({ ID := "full", Status := StatusAuthenticated, send := [{ ID := "m1" }], sendCap := 1 : Client } ∈
      [{ ID := "full", Status := StatusAuthenticated, send := [{ ID := "m1" }], sendCap := 1 : Client },
       { ID := "spare", Status := StatusAuthenticated, send := [], sendCap := 1 : Client }]) ∧
    ({ ID := "full", Status := StatusAuthenticated, send := [{ ID := "m1" }], sendCap := 1 : Client } : Client).Status = StatusAuthenticated ∧
    ({ ID := "full", Status := StatusAuthenticated, send := [{ ID := "m1" }], sendCap := 1 : Client } : Client).sendCap ≤
      ({ ID := "full", Status := StatusAuthenticated, send := [{ ID := "m1" }], sendCap := 1 : Client } : Client).send.length ∧
    ((sendToAuthenticatedClients
        [{ ID := "full", Status := StatusAuthenticated, send := [{ ID := "m1" }], sendCap := 1 : Client },
         { ID := "spare", Status := StatusAuthenticated, send := [], sendCap := 1 : Client }]
        { ID := "evt" }).1.length =
      ([{ ID := "full", Status := StatusAuthenticated, send := [{ ID := "m1" }], sendCap := 1 : Client },
        { ID := "spare", Status := StatusAuthenticated, send := [], sendCap := 1 : Client }] : List Client).length ∧
     (sendToAuthenticatedClients
        [{ ID := "full", Status := StatusAuthenticated, send := [{ ID := "m1" }], sendCap := 1 : Client },
         { ID := "spare", Status := StatusAuthenticated, send := [], sendCap := 1 : Client }]
        { ID := "evt" }).1 =
      [{ ID := "full", Status := StatusAuthenticated, send := [{ ID := "m1" }], sendCap := 1 : Client },
       { ID := "spare", Status := StatusAuthenticated, send := [], sendCap := 1 : Client }].map
        (deliverOne { ID := "evt" }) ∧
     deliverOne { ID := "evt" }
        { ID := "full", Status := StatusAuthenticated, send := [{ ID := "m1" }], sendCap := 1 : Client } =
      { ID := "full", Status := StatusAuthenticated, send := [{ ID := "m1" }], sendCap := 1 : Client } ∧
     (∀ d : Client, d.Status = StatusAuthenticated → d.send.length < d.sendCap →
        deliverOne { ID := "evt" } d = { d with send := d.send ++ [{ ID := "evt" }] })) :=
  ⟨by decide, by decide, by decide,
    broadcast_full_mailbox_drops_without_blocking _ _ _ (by decide) (by decide) (by decide)⟩

/-- C9 (confirmed): handling an `auth_response` for a client whose
status is not `Unauthenticated` is a no-op — the client (its `Status`,
`UserID` and mailbox) is unchanged, nothing is enqueued, no token is
parsed, and no close is scheduled. -/
theorem handleAuthResponse_already_authenticated_noop
    (parse : String → Except String TokenClaims) (c : Client) (msg : Message)
    (freshID : String) (now : Nat) (h : c.Status ≠ StatusUnauthenticated) :
    c.handleAuthResponse parse msg freshID now =
      { client := c, sent := [], closeScheduled := false,
        tokenParsed := false, promoted := false } := by
  simp [Client.handleAuthResponse, h]

/-- Witness for C9: an already-`Authenticated` client receiving a
second `auth_response` is left exactly as it was. -/
theorem handleAuthResponse_already_authenticated_noop_witness :
    ({ ID := "c", UserID := "u", Status := StatusAuthenticated, send := [], sendCap := 2 : Client }).Status ≠
      StatusUnauthenticated ∧
    Client.handleAuthResponse (fun _ => .error "never")
      { ID := "c", UserID := "u", Status := StatusAuthenticated, send := [], sendCap := 2 }
      { Type' := MessageTypeAuthResponse, Data := [("token", DataValue.str "t")] } "f" 7 =
      { client := { ID := "c", UserID := "u", Status := StatusAuthenticated, send := [], sendCap := 2 },
        sent := [], closeScheduled := false, tokenParsed := false, promoted := false } :=
  ⟨by decide, handleAuthResponse_already_authenticated_noop _ _ _ _ _ (by decide)⟩

/-- C7 (confirmed): an unauthenticated client whose `auth_response`
carries no string `data.token` receives exactly one `auth_failure`
whose reason contains "Invalid token format", with the delayed close
scheduled, and token verification is never invoked — the type check
precedes verification. -/
theorem handleAuthResponse_invalid_token_format
    (parse : String → Except String TokenClaims) (c : Client) (msg : Message)
    (freshID : String) (now : Nat)
    (hst : c.Status = StatusUnauthenticated)
    (htok : lookupString msg.Data "token" = none) :
    (c.handleAuthResponse parse msg freshID now).sent =
      [authFailureMessage freshID now "Invalid token format"] ∧
    (c.handleAuthResponse parse msg freshID now).tokenParsed = false ∧
    (c.handleAuthResponse parse msg freshID now).closeScheduled = true ∧
    (∀ m ∈ (c.handleAuthResponse parse msg freshID now).sent,
      m.Type' = MessageTypeAuthFailure ∧
      ∃ r, lookupString m.Data "reason" = some r ∧
        strContainsStr r "Invalid token format" = true) := by
  have hsent : c.handleAuthResponse parse msg freshID now =
      Client.sendAuthFailure c "Invalid token format" freshID now := by
    simp [Client.handleAuthResponse, hst, htok]
  rw [hsent]
  refine ⟨rfl, rfl, rfl, ?_⟩
  intro m hm
  have hmeq : m = authFailureMessage freshID now "Invalid token format" := by
    simpa [Client.sendAuthFailure] using hm
  subst hmeq
  exact ⟨rfl, "Invalid token format", rfl, by decide⟩

/-- Witness for C7: an unauthenticated client sends `auth_response`
with `data.token` bound to a number (the package test's `12345`) — the
"Invalid token format" failure is enqueued and `parse` is never
called. -/
theorem handleAuthResponse_invalid_token_format_witness :
    ({ ID := "c", Status := StatusUnauthenticated, send := [], sendCap := 2 : Client }).Status =
      StatusUnauthenticated ∧
    lookupString [("token", DataValue.num 12345)] "token" = none ∧
    ((Client.handleAuthResponse (fun _ => .error "never")
        { ID := "c", Status := StatusUnauthenticated, send := [], sendCap := 2 }
        { Type' := MessageTypeAuthResponse, Data := [("token", DataValue.num 12345)] } "f" 3).sent =
      [authFailureMessage "f" 3 "Invalid token format"] ∧
     (Client.handleAuthResponse (fun _ => .error "never")
        { ID := "c", Status := StatusUnauthenticated, send := [], sendCap := 2 }
        { Type' := MessageTypeAuthResponse, Data := [("token", DataValue.num 12345)] } "f" 3).tokenParsed = false ∧
     (Client.handleAuthResponse (fun _ => .error "never")
        { ID := "c", Status := StatusUnauthenticated, send := [], sendCap := 2 }
        { Type' := MessageTypeAuthResponse, Data := [("token", DataValue.num 12345)] } "f" 3).closeScheduled = true ∧
     (∀ m ∈ (Client.handleAuthResponse (fun _ => .error "never")
        { ID := "c", Status := StatusUnauthenticated, send := [], sendCap := 2 }
        { Type' := MessageTypeAuthResponse, Data := [("token", DataValue.num 12345)] } "f" 3).sent,
      m.Type' = MessageTypeAuthFailure ∧
      ∃ r, lookupString m.Data "reason" = some r ∧
        strContainsStr r "Invalid token format" = true)) :=
  ⟨rfl, rfl, handleAuthResponse_invalid_token_format _ _ _ _ _ rfl rfl⟩

/-- C1 counterexample: an `Unauthenticated` client receives a
`message` envelope; `routeMessage` enqueues the single
"Authentication required" `auth_failure` but schedules no connection
close — refuting the claim's "the connection is then closed within the
short grace delay". -/
theorem routeMessage_unauthenticated_no_close_cex :
    (Client.routeMessage (fun _ => .error "invalid")
        { ID := "c1", Status := StatusUnauthenticated, send := [], sendCap := 64 }
        { Type' := MessageTypeMessage, Channel := "user" } "f1" 0).sent =
      [authenticationRequiredMessage "f1" 0] ∧
    (Client.routeMessage (fun _ => .error "invalid")
        { ID := "c1", Status := StatusUnauthenticated, send := [], sendCap := 64 }
        { Type' := MessageTypeMessage, Channel := "user" } "f1" 0).closeScheduled = false :=
  ⟨rfl, rfl⟩

/-- C1 (corrected): a non-`auth_response` envelope from an
`Unauthenticated` client draws exactly one `auth_failure` whose
`data.reason` contains "Authentication required" onto the client's
outbound mailbox — but no connection close is scheduled: the
connection stays open (the delayed close exists only on the
`sendAuthFailure` path taken for failed token verification). -/
theorem routeMessage_unauthenticated_blocks_without_close
    (parse : String → Except String TokenClaims) (c : Client) (msg : Message)
    (freshID : String) (now : Nat)
    (hst : c.Status = StatusUnauthenticated)
    (hty : msg.Type' ≠ MessageTypeAuthResponse) :
    (c.routeMessage parse msg freshID now).sent =
      [authenticationRequiredMessage freshID now] ∧
    (∀ m ∈ (c.routeMessage parse msg freshID now).sent,
      m.Type' = MessageTypeAuthFailure ∧
      ∃ r, lookupString m.Data "reason" = some r ∧
        strContainsStr r "Authentication required" = true) ∧
    (c.routeMessage parse msg freshID now).closeScheduled = false ∧
    (c.routeMessage parse msg freshID now).client =
      { c with send := c.send ++ [authenticationRequiredMessage freshID now] } := by
  have hroute : c.routeMessage parse msg freshID now =
      { client := { c with send := c.send ++ [authenticationRequiredMessage freshID now] },
        sent := [authenticationRequiredMessage freshID now],
        closeScheduled := false, tokenParsed := false, promoted := false } := by
    simp [Client.routeMessage, hst, hty]
  rw [hroute]
  refine ⟨rfl, ?_, rfl, rfl⟩
  intro m hm
  have hmeq : m = authenticationRequiredMessage freshID now := by simpa using hm
  subst hmeq
  exact ⟨rfl, "Authentication required", rfl, by decide⟩

/-- Witness for C1 (amended): a concrete unauthenticated client
sending a `message` envelope. -/
theorem routeMessage_unauthenticated_blocks_without_close_witness :
    ({ ID := "w1", Status := StatusUnauthenticated, send := [], sendCap := 64 : Client }).Status =
      StatusUnauthenticated ∧
    ({ Type' := MessageTypeMessage, Channel := "user" : Message }).Type' ≠ MessageTypeAuthResponse ∧
    ((Client.routeMessage (fun _ => .error "invalid")
        { ID := "w1", Status := StatusUnauthenticated, send := [], sendCap := 64 }
        { Type' := MessageTypeMessage, Channel := "user" } "f2" 9).sent =
      [authenticationRequiredMessage "f2" 9] ∧
     (∀ m ∈ (Client.routeMessage (fun _ => .error "invalid")
        { ID := "w1", Status := StatusUnauthenticated, send := [], sendCap := 64 }
        { Type' := MessageTypeMessage, Channel := "user" } "f2" 9).sent,
      m.Type' = MessageTypeAuthFailure ∧
      ∃ r, lookupString m.Data "reason" = some r ∧
        strContainsStr r "Authentication required" = true) ∧
     (Client.routeMessage (fun _ => .error "invalid")
        { ID := "w1", Status := StatusUnauthenticated, send := [], sendCap := 64 }
        { Type' := MessageTypeMessage, Channel := "user" } "f2" 9).closeScheduled = false ∧
     (Client.routeMessage (fun _ => .error "invalid")
        { ID := "w1", Status := StatusUnauthenticated, send := [], sendCap := 64 }
        { Type' := MessageTypeMessage, Channel := "user" } "f2" 9).client =
      { ({ ID := "w1", Status := StatusUnauthenticated, send := [], sendCap := 64 : Client }) with
          send := ({ ID := "w1", Status := StatusUnauthenticated, send := [], sendCap := 64 : Client }).send ++
            [authenticationRequiredMessage "f2" 9] }) :=
  ⟨rfl, by decide,
    routeMessage_unauthenticated_blocks_without_close _ _ _ _ _ rfl (by decide)⟩

/-- C2 counterexample: a token signed with the correct server secret
but with header algorithm HS384 — not the HS256 used at issuance — is
accepted by `ParseJWTToken` and yields claims, refuting "exactly one
supported symmetric signing algorithm". -/
theorem parseJWT_accepts_HS384_cex :
    ParseJWTToken
      { method := .HS384,
        claims := { UserID := uuidNil, ExpiresAt := 100, Issuer := "app_api", ID := "jti" },
        signature := hmacTag .HS384 "secret"
          (encodeClaims { UserID := uuidNil, ExpiresAt := 100, Issuer := "app_api", ID := "jti" }) }
      { SecurityJwtSecret := "secret" } 0 =
      .ok { UserID := uuidNil, ExpiresAt := 100, Issuer := "app_api", ID := "jti" } ∧
    SigningMethod.HS384 ≠ SigningMethod.HS256 :=
  ⟨rfl, by decide⟩

/-- C2 (corrected): verification accepts exactly the symmetric HMAC
family, not exactly one algorithm — every token whose header algorithm
lies outside the HMAC family (HS256/HS384/HS512) is rejected with an
error rather than yielding claims, while any well-signed HMAC-family
token (including HS384/HS512) passes the method check. -/
theorem parseJWT_rejects_non_hmac
    (tok : SignedToken) (cfg : Config) (now : Nat)
    (h : tok.method.isHMACFamily = false) :
    ∃ e, ParseJWTToken tok cfg now = .error e := by
  unfold ParseJWTToken
  by_cases hs : cfg.SecurityJwtSecret = ""
  · exact ⟨"JWT secret key not found in config", by simp [hs]⟩
  · exact ⟨"unexpected signing method", by simp [hs, h]⟩

/-- Witness for C2 (amended): an RS256-headed token is rejected. -/
theorem parseJWT_rejects_non_hmac_witness :
    SigningMethod.isHMACFamily .RS256 = false ∧
    ∃ e, ParseJWTToken
        { method := .RS256, claims := { UserID := uuidNil, ExpiresAt := 100 }, signature := "x" }
        { SecurityJwtSecret := "secret" } 0 = .error e :=
  ⟨by decide, parseJWT_rejects_non_hmac _ _ _ (by decide)⟩

/-- C8 counterexample: on a successfully handled connection the
registered client's outbound mailbox is empty — the `auth_request`
challenge was never enqueued on the mailbox; it was written directly to
the socket, and that write strictly precedes the registration step in
the action trace. -/
theorem handleWebSocket_challenge_not_on_mailbox_cex :
    (HandleWebSocket "c1" "m1" 0 true).1 =
      [ConnAction.writeConn
        { ID := "m1", Type' := MessageTypeAuthRequest, Channel := "system",
          Action := "authenticate", Timestamp := 0 },
       ConnAction.registerClient
        { ID := "c1", UserID := uuidNil, Status := StatusUnauthenticated,
          send := [], sendCap := SendChannelSize }] ∧
    ((HandleWebSocket "c1" "m1" 0 true).2.map Client.send) = some [] :=
  ⟨rfl, rfl⟩

/-- C8 (corrected): on every newly handled connection whose initial
challenge write succeeds, the `auth_request` challenge is written
directly to the peer's socket first, and only afterwards is the still-
unauthenticated client (mailbox empty) handed to the Hub's register
queue, whose handler adds it to the registry unconditionally; the
challenge is never enqueued on the outbound mailbox, and if the initial
write fails the client is never registered at all. -/
theorem handleWebSocket_registers_after_direct_challenge
    (clientID freshMsgID : String) (now : Nat) (registry : List (String × Client)) :
    ∃ client : Client,
      (HandleWebSocket clientID freshMsgID now true).1 =
        [ConnAction.writeConn
          { ID := freshMsgID, Type' := MessageTypeAuthRequest, Channel := "system",
            Action := "authenticate", Timestamp := now },
         ConnAction.registerClient client] ∧
      (HandleWebSocket clientID freshMsgID now true).2 = some client ∧
      client.Status = StatusUnauthenticated ∧
      client.send = [] ∧
      (hubRegisterClient registry client).lookup client.ID = some client ∧
      (HandleWebSocket clientID freshMsgID now false).1 =
        [ConnAction.writeConn
          { ID := freshMsgID, Type' := MessageTypeAuthRequest, Channel := "system",
            Action := "authenticate", Timestamp := now },
         ConnAction.closeConn] ∧
      (HandleWebSocket clientID freshMsgID now false).2 = none := by
  refine ⟨_, rfl, rfl, rfl, rfl, ?_, rfl, rfl⟩
  simp [hubRegisterClient]

/-- The session record `sessionRepository.Create` persists on its
success path, written out explicitly. -/
def createdSession (now newID : Nat) (tokenID userID : String) (cfg : Config) : Session :=
  let claims : TokenClaims :=
    { UserID := userID, ExpiresAt := now + SESSION_EXPIRY, IssuedAt := now,
      NotBefore := now, Issuer := SESSION_ISSUER_KEY, ID := tokenID }
  { ID := uuidStringOf newID,
    UserID := userID,
    Token := some { method := .HS256, claims := claims, signature := hmacTag .HS256 cfg.SecurityJwtSecret (encodeClaims claims) },
    ExpiresAt := now + SESSION_EXPIRY,
    RefreshAt := now + SESSION_REFRESH }

theorem sessionRepository.Create_ok (now newID : Nat) (tokenID userID : String)
    (cfg : Config) (cache : ValkeyStore)
    (huid : uuidParses userID = true)
    (hsecret : cfg.SecurityJwtSecret ≠ "")
    (hnil : cache.isNil = false) :
    sessionRepository.Create now newID tokenID { ID := "", UserID := userID } cfg cache =
      .ok (createdSession now newID tokenID userID cfg,
        { cache with entries := storeSet cache.entries (goSprintfNoVerb SESSION_CACHE_KEY (uuidStringOf newID)) (marshalSession (createdSession now newID tokenID userID cfg)) }) := by
  have hne : userID ≠ "" := uuidParses_ne_empty huid
  simp only [sessionRepository.Create, GenerateJWTToken, NewCacheBuilder,
    CacheBuilder.WithHashPattern, CacheBuilder.WithSruct, CacheBuilder.WithTTL,
    CacheBuilder.Set, createdSession]
  rw [if_neg (by simp)]
  rw [if_neg hne]
  rw [if_neg hsecret]
  rw [huid]
  rw [if_neg (by simp)]
  rw [if_neg (by simp [SESSION_CACHE_KEY])]
  rw [hnil]
  simp only [Bool.false_eq_true, if_false]
  rw [if_neg (goSprintfNoVerb_ne_empty _ _)]
  rw [if_neg (marshalSession_ne_empty _)]

/-- C3 counterexample: creating a session for user id `"u-1"` fails —
`GenerateJWTToken` calls `uuid.Parse` on the user id and `"u-1"` is not
a UUID, so `Create` returns the token-generation error instead of
succeeding. -/
theorem sessionCreate_u1_fails_cex :
    sessionRepository.Create 0 0 "jti" { ID := "", UserID := "u-1" }
      { SecurityJwtSecret := "secret" } { isNil := false, entries := [] } =
      .error "failed to parse user id" := by
  rfl

/-- C3 (corrected): for every user id that parses as a UUID (not every
non-empty user id — `"u-1"` is rejected by `uuid.Parse` inside token
generation), with a configured JWT secret and a live cache client,
`Create` succeeds and returns a record with a non-empty freshly
generated ID, `ExpiresAt` exactly `now + 7d` and `RefreshAt` exactly
`now + 5d`. -/
theorem sessionCreate_valid_uuid_succeeds
    (now newID : Nat) (tokenID userID : String) (cfg : Config) (cache : ValkeyStore)
    (huid : uuidParses userID = true)
    (hsecret : cfg.SecurityJwtSecret ≠ "")
    (hnil : cache.isNil = false) :
    ∃ s cache2,
      sessionRepository.Create now newID tokenID { ID := "", UserID := userID } cfg cache =
        .ok (s, cache2) ∧
      s.ID ≠ "" ∧ s.UserID = userID ∧
      s.ExpiresAt = now + SESSION_EXPIRY ∧ s.RefreshAt = now + SESSION_REFRESH := by
  refine ⟨createdSession now newID tokenID userID cfg, _,
    sessionRepository.Create_ok now newID tokenID userID cfg cache huid hsecret hnil,
    uuidStringOf_ne_empty newID, ?_, ?_, ?_⟩ <;> simp [createdSession]

/-- Witness for C3 (amended): creating a session for the nil-UUID user
id succeeds with the exact 7-day/5-day stamps. -/
theorem sessionCreate_valid_uuid_succeeds_witness :
    uuidParses "00000000-0000-0000-0000-000000000000" = true ∧
    ("secret" : String) ≠ "" ∧
    (({ isNil := false, entries := [] } : ValkeyStore)).isNil = false ∧
    ∃ s cache2,
      sessionRepository.Create 1000 7 "jti"
        { ID := "", UserID := "00000000-0000-0000-0000-000000000000" }
        { SecurityJwtSecret := "secret" } { isNil := false, entries := [] } =
        .ok (s, cache2) ∧
      s.ID ≠ "" ∧ s.UserID = "00000000-0000-0000-0000-000000000000" ∧
      s.ExpiresAt = 1000 + SESSION_EXPIRY ∧ s.RefreshAt = 1000 + SESSION_REFRESH :=
  ⟨by decide, by decide, rfl,
    sessionCreate_valid_uuid_succeeds 1000 7 "jti" _ _ _ (by decide) (by decide) rfl⟩

/-- C10 (confirmed): `Create`, `GetByID` and `Delete` all derive the
cache key by the same single application of the format pattern
`"session:"` to the session id — even though the pattern contains no
format verb, `fmt.Sprintf` yields the deterministic string
`"session:%!(EXTRA string=<id>)"` — so the record `Create` stores is
found by a later `GetByID` with the same id and removed by `Delete`,
after which `GetByID` no longer finds it. -/
theorem sessionRepository_key_agreement
    (now newID : Nat) (tokenID userID : String) (cfg : Config) (cache : ValkeyStore)
    (huid : uuidParses userID = true)
    (hsecret : cfg.SecurityJwtSecret ≠ "")
    (hnil : cache.isNil = false) :
    ∃ s cache2 cache3,
      sessionRepository.Create now newID tokenID { ID := "", UserID := userID } cfg cache =
        .ok (s, cache2) ∧
      (∀ store : ValkeyStore,
        ((NewCacheBuilder store s.ID).WithHashPattern SESSION_CACHE_KEY).key =
          goSprintfNoVerb SESSION_CACHE_KEY s.ID) ∧
      sessionRepository.GetByID cache2 s.ID = .ok (marshalSession s) ∧
      sessionRepository.Delete cache2 s.ID = .ok cache3 ∧
      sessionRepository.GetByID cache3 s.ID = .error "key not found" := by
  have hcreate := sessionRepository.Create_ok now newID tokenID userID cfg cache huid hsecret hnil
  have hid : (createdSession now newID tokenID userID cfg).ID = uuidStringOf newID := rfl
  refine ⟨createdSession now newID tokenID userID cfg, { cache with entries := storeSet cache.entries (goSprintfNoVerb SESSION_CACHE_KEY (uuidStringOf newID)) (marshalSession (createdSession now newID tokenID userID cfg)) }, { cache with entries := storeDelete (storeSet cache.entries (goSprintfNoVerb SESSION_CACHE_KEY (uuidStringOf newID)) (marshalSession (createdSession now newID tokenID userID cfg))) (goSprintfNoVerb SESSION_CACHE_KEY (uuidStringOf newID)) }, hcreate, ?_, ?_, ?_, ?_⟩
  · intro store
    simp [NewCacheBuilder, CacheBuilder.WithHashPattern, SESSION_CACHE_KEY]
  · simp only [sessionRepository.GetByID, NewCacheBuilder, CacheBuilder.WithHashPattern,
      CacheBuilder.Get, hid]
    rw [if_neg (show ¬SESSION_CACHE_KEY = "" by decide)]
    simp only [hnil, Bool.false_eq_true, if_false]
    simp [storeSet]
  · simp only [sessionRepository.Delete, NewCacheBuilder, CacheBuilder.WithHashPattern,
      CacheBuilder.Delete, hid]
    rw [if_neg (show ¬SESSION_CACHE_KEY = "" by decide)]
    simp only [hnil, Bool.false_eq_true, if_false]
  · simp only [sessionRepository.GetByID, NewCacheBuilder, CacheBuilder.WithHashPattern,
      CacheBuilder.Get, hid]
    rw [if_neg (show ¬SESSION_CACHE_KEY = "" by decide)]
    simp only [hnil, Bool.false_eq_true, if_false]
    rw [lookup_storeDelete]

/-- Witness for C10: the nil-UUID user's created record is fetched
under the same key and gone after delete. -/
theorem sessionRepository_key_agreement_witness :
    uuidParses "00000000-0000-0000-0000-000000000000" = true ∧
    ("secret" : String) ≠ "" ∧
    (({ isNil := false, entries := [] } : ValkeyStore)).isNil = false ∧
    ∃ s cache2 cache3,
      sessionRepository.Create 5 3 "jti"
        { ID := "", UserID := "00000000-0000-0000-0000-000000000000" }
        { SecurityJwtSecret := "secret" } { isNil := false, entries := [] } =
        .ok (s, cache2) ∧
      (∀ store : ValkeyStore,
        ((NewCacheBuilder store s.ID).WithHashPattern SESSION_CACHE_KEY).key =
          goSprintfNoVerb SESSION_CACHE_KEY s.ID) ∧
      sessionRepository.GetByID cache2 s.ID = .ok (marshalSession s) ∧
      sessionRepository.Delete cache2 s.ID = .ok cache3 ∧
      sessionRepository.GetByID cache3 s.ID = .error "key not found" :=
  ⟨by decide, by decide, rfl,
    sessionRepository_key_agreement 5 3 "jti" _ _ _ (by decide) (by decide) rfl⟩

end Baseline
